import Mathlib

/-
Formal model of scripts/generate_assets.py (NexusPVR asset generator).

Conventions of the shallow embedding:
- Python floats are modelled as exact rationals (for the purely rational
  computations: triangle and ellipse geometry, colour scaling, CRT radii)
  or as reals (for the radial gradient, which uses math.sqrt and ** 0.8).
- Python int() is truncation toward zero (pyIntQ / pyIntR below).
- A Pillow image is modelled by its pixel function: a drawn filled shape
  covers exactly the pixels whose integer coordinates satisfy the shape's
  closed inequalities; drawing later overwrites earlier; alpha compositing
  with a fully opaque / fully transparent overlay selects the overlay /
  the base pixel.
- File effects are modelled as pure write descriptions (path, content,
  parents-created flag); the script reads no file on the executed paths.
-/

/-- Python int() truncation toward zero, on rationals. -/
def pyIntQ (q : ℚ) : ℤ := if 0 ≤ q then ⌊q⌋ else ⌈q⌉

/-- Python int() truncation toward zero, on reals (used where the source
computes with math.sqrt and a fractional power). -/
noncomputable def pyIntR (x : ℝ) : ℤ := if 0 ≤ x then ⌊x⌋ else ⌈x⌉

/-- One colour channel of create_radial_gradient (source lines 61-76):
distance of the pixel to the canvas centre, normalised by the corner
distance, clamped to 1, eased by the 0.8 power, then linear interpolation
from the centre channel c to the edge channel e and int() truncation. -/
noncomputable def gradChannel (w h c e x y : ℕ) : ℤ :=
  pyIntR ((c : ℝ) + ((e : ℝ) - (c : ℝ)) *
    (min (Real.sqrt (((x : ℝ) - (w : ℝ) / 2) ^ 2 + ((y : ℝ) - (h : ℝ) / 2) ^ 2) /
          Real.sqrt (((w : ℝ) / 2) ^ 2 + ((h : ℝ) / 2) ^ 2)) 1) ^ (0.8 : ℝ))

/-- Pixel (x, y) of the image returned by create_radial_gradient, as an RGB
triple of the three interpolated channels. -/
noncomputable def createRadialGradient (w h : ℕ) (c e : ℕ × ℕ × ℕ) (x y : ℕ) : ℤ × ℤ × ℤ :=
  (gradChannel w h c.1 e.1 x y, gradChannel w h c.2.1 e.2.1 x y, gradChannel w h c.2.2 e.2.2 x y)

/-- Each channel of p is within one unit of the corresponding channel of q
(rounding tolerance). -/
def withinOne (p : ℤ × ℤ × ℤ) (q : ℕ × ℕ × ℕ) : Prop :=
  |p.1 - (q.1 : ℤ)| ≤ 1 ∧ |p.2.1 - (q.2.1 : ℤ)| ≤ 1 ∧ |p.2.2 - (q.2.2 : ℤ)| ≤ 1

instance (p : ℤ × ℤ × ℤ) (q : ℕ × ℕ × ℕ) : Decidable (withinOne p q) := by
  unfold withinOne; infer_instance

/-- Each channel of p lies (inclusively) between the corresponding channels
of c and of e. -/
def channelsBetween (p : ℤ × ℤ × ℤ) (c e : ℕ × ℕ × ℕ) : Prop :=
  (((min c.1 e.1 : ℕ) : ℤ) ≤ p.1 ∧ p.1 ≤ ((max c.1 e.1 : ℕ) : ℤ)) ∧
  (((min c.2.1 e.2.1 : ℕ) : ℤ) ≤ p.2.1 ∧ p.2.1 ≤ ((max c.2.1 e.2.1 : ℕ) : ℤ)) ∧
  (((min c.2.2 e.2.2 : ℕ) : ℤ) ≤ p.2.2 ∧ p.2.2 ≤ ((max c.2.2 e.2.2 : ℕ) : ℤ))

/-- Signed area cross product used for the point-in-triangle test. -/
def crossQ (a1 a2 b1 b2 p1 p2 : ℚ) : ℚ := (b1 - a1) * (p2 - a2) - (b2 - a2) * (p1 - a1)

/-- Pillow ImageDraw.polygon membership model for a filled triangle: the
pixel lies in the closed triangle (all three edge cross products share a
sign). Exact on every pixel not on the rasterisation boundary. -/
def inTriangleQ (q1 q2 r1 r2 s1 s2 p1 p2 : ℚ) : Bool :=
  (decide (crossQ q1 q2 r1 r2 p1 p2 ≤ 0) && decide (crossQ r1 r2 s1 s2 p1 p2 ≤ 0) &&
    decide (crossQ s1 s2 q1 q2 p1 p2 ≤ 0)) ||
  (decide (0 ≤ crossQ q1 q2 r1 r2 p1 p2) && decide (0 ≤ crossQ r1 r2 s1 s2 p1 p2) &&
    decide (0 ≤ crossQ s1 s2 q1 q2 p1 p2))

/-- Membership in the play-button triangle of draw_play_button (source lines
79-88): side s = 70*scale, apex offset px = cx - s*0.15, vertices
(px - s*0.45, cy - s*0.6), (px - s*0.45, cy + s*0.6), (px + s*0.55, cy). -/
def inPlayButton (cx cy scale qx qy : ℚ) : Bool :=
  inTriangleQ (cx - 70 * scale * 0.15 - 70 * scale * 0.45) (cy - 70 * scale * 0.6)
              (cx - 70 * scale * 0.15 - 70 * scale * 0.45) (cy + 70 * scale * 0.6)
              (cx - 70 * scale * 0.15 + 70 * scale * 0.55) cy qx qy

/-- Membership in the recording-dot disk of draw_recording_dot (source lines
91-96): radius 12*scale, centre (cx + 55*scale, cy - 45*scale). -/
def inRecordingDot (cx cy scale qx qy : ℚ) : Bool :=
  decide ((qx - (cx + 55 * scale)) ^ 2 + (qy - (cy - 45 * scale)) ^ 2 ≤ (12 * scale) ^ 2)

/-- Pillow rounded_rectangle fill membership model: inside the bounding box
and, in each corner square of side rad, inside that corner's quarter disk. -/
def inRoundedRect (x0 y0 x1 y1 rad qx qy : ℚ) : Bool :=
  decide (x0 ≤ qx) && decide (qx ≤ x1) && decide (y0 ≤ qy) && decide (qy ≤ y1) &&
  (!(decide (qx < x0 + rad) && decide (qy < y0 + rad)) ||
    decide ((qx - (x0 + rad)) ^ 2 + (qy - (y0 + rad)) ^ 2 ≤ rad ^ 2)) &&
  (!(decide (x1 - rad < qx) && decide (qy < y0 + rad)) ||
    decide ((qx - (x1 - rad)) ^ 2 + (qy - (y0 + rad)) ^ 2 ≤ rad ^ 2)) &&
  (!(decide (qx < x0 + rad) && decide (y1 - rad < qy)) ||
    decide ((qx - (x0 + rad)) ^ 2 + (qy - (y1 - rad)) ^ 2 ≤ rad ^ 2)) &&
  (!(decide (x1 - rad < qx) && decide (y1 - rad < qy)) ||
    decide ((qx - (x1 - rad)) ^ 2 + (qy - (y1 - rad)) ^ 2 ≤ rad ^ 2))

/-- RGB triple of naturals cast to integer channels. -/
def rgbz (c : ℕ × ℕ × ℕ) : ℤ × ℤ × ℤ := ((c.1 : ℤ), (c.2.1 : ℤ), (c.2.2 : ℤ))

/-- Brand record of the BRANDS table (source lines 28-55). -/
structure Brand where
  name : String
  assetsDir : String
  gradientCenter : ℕ × ℕ × ℕ
  gradientEdge : ℕ × ℕ × ℕ
  recordingDot : ℕ × ℕ × ℕ
  accentRgb : Option (ℚ × ℚ × ℚ)
  launchBgRgb : ℚ × ℚ × ℚ
deriving DecidableEq

/-- Keys of the BRANDS table. -/
inductive BrandKey where
  | nexuspvr
  | dispatcherpvr
deriving DecidableEq

/-- The nexuspvr brand configuration (source lines 29-41). -/
def nexuspvrBrand : Brand :=
  { name := "NexusPVR"
    assetsDir := "NexusPVR/Assets.xcassets"
    gradientCenter := (42, 107, 153)
    gradientEdge := (15, 35, 60)
    recordingDot := (233, 30, 99)
    accentRgb := none
    launchBgRgb := (0.059, 0.059, 0.059) }

/-- The dispatcherpvr brand configuration (source lines 42-54). -/
def dispatcherpvrBrand : Brand :=
  { name := "DispatcherPVR"
    assetsDir := "DispatcherPVR/Assets.xcassets"
    gradientCenter := (55, 130, 115)
    gradientEdge := (12, 38, 33)
    recordingDot := (217, 72, 72)
    accentRgb := some (0.263, 0.561, 0.498)
    launchBgRgb := (0.071, 0.071, 0.078) }

/-- The BRANDS table. -/
def BRANDS : BrandKey → Brand
  | BrandKey.nexuspvr => nexuspvrBrand
  | BrandKey.dispatcherpvr => dispatcherpvrBrand

/-- Theme selection of generate (source line 516): is_crt = brand_key == "dispatcherpvr". -/
def isCrt : BrandKey → Bool
  | BrandKey.nexuspvr => false
  | BrandKey.dispatcherpvr => true

/-- Pixel (x, y) of create_app_icon (source lines 103-123): radial-gradient
background under a rounded-corner mask (radius int(size*0.22), edge colour
outside the mask), then the play triangle and the recording dot (drawn
later, hence on top) alpha-composited fully opaque, flattened to RGB. -/
noncomputable def appIconPixel (size : ℕ) (b : Brand) (x y : ℕ) : ℤ × ℤ × ℤ :=
  if inRecordingDot ((size : ℚ) / 2) ((size : ℚ) / 2) ((size : ℚ) / 1024 * 2.5) (x : ℚ) (y : ℚ) then
    rgbz b.recordingDot
  else if inPlayButton ((size : ℚ) / 2) ((size : ℚ) / 2) ((size : ℚ) / 1024 * 2.5) (x : ℚ) (y : ℚ) then
    (255, 255, 255)
  else if inRoundedRect 0 0 (size : ℚ) (size : ℚ) ((pyIntQ ((size : ℚ) * 0.22) : ℤ) : ℚ) (x : ℚ) (y : ℚ) then
    createRadialGradient size size b.gradientCenter b.gradientEdge x y
  else
    rgbz b.gradientEdge

/-- CRT background colour (source line 302). -/
def CRT_BG : ℤ × ℤ × ℤ := (14, 31, 21)

/-- Recording-dot radius computed by _draw_crt_on (source lines 356-359):
rec_r = max(int(3*s), 1), overridden to max(int(2*s), 1) when the reference
extent int(200*s) is at most 32. -/
def crtRecRadius (s : ℚ) : ℤ :=
  if pyIntQ (200 * s) ≤ 32 then max (pyIntQ (2 * s)) 1 else max (pyIntQ (3 * s)) 1

/-- Knob radius computed by _draw_crt_on (source lines 368-374), used for
both knobs: kr = max(int(4*s), 2), overridden to max(int(3*s), 1) when the
reference extent int(200*s) is at most 32. -/
def crtKnobRadius (s : ℚ) : ℤ :=
  if pyIntQ (200 * s) ≤ 32 then max (pyIntQ (3 * s)) 1 else max (pyIntQ (4 * s)) 2

/-- Scaling of a 0-1 colour triple to 0-255 integer channels, as
tuple(int(c * 255) for c in rgb) in the source (lines 145, 555). -/
def scale255 (c : ℚ × ℚ × ℚ) : ℤ × ℤ × ℤ :=
  (pyIntQ (c.1 * 255), pyIntQ (c.2.1 * 255), pyIntQ (c.2.2 * 255))

/-- Fill colour of the launch-background images (source line 555):
CRT_BG if is_crt else the brand's launch_bg_rgb scaled to 0-255. -/
def launchBGFillCfg (b : Brand) (crt : Bool) : ℤ × ℤ × ℤ :=
  if crt then CRT_BG else scale255 b.launchBgRgb

/-- Fill colour of the launch-background images for a brand key. -/
def launchBGFill (k : BrandKey) : ℤ × ℤ × ℤ := launchBGFillCfg (BRANDS k) (isCrt k)

/-- Pixel (x, y) of the size sz launch-background image: Image.new with a
constant fill (source line 555), so every pixel is the fill colour. -/
def launchBGImagePixel (k : BrandKey) (sz x y : ℕ) : ℤ × ℤ × ℤ := launchBGFill k

/-- Description of one composed asset: which composer the orchestrator
invoked, with its brand parameters and target size. The VHS composers
(source lines 250-295) appear as constructors so that the orchestrator
model can be checked never to select them. -/
inductive AssetSpec where
  | appIcon (b : Brand) (size : ℕ)
  | crtIcon (b : Brand) (size : ℕ)
  | vhsIcon (b : Brand) (size : ℕ)
  | launchLogo (b : Brand) (size : ℕ)
  | crtLaunchLogo (b : Brand) (size : ℕ)
  | vhsLaunchLogo (b : Brand) (size : ℕ)
  | launchBG (fill : ℤ × ℤ × ℤ) (size : ℕ)
  | tvosBack (b : Brand) (w h : ℕ)
  | crtTvosBack (b : Brand) (w h : ℕ)
  | tvosMiddle (w h : ℕ)
  | tvosFront (b : Brand) (w h : ℕ)
  | crtTvosFront (b : Brand) (w h : ℕ)
  | vhsTvosFront (b : Brand) (w h : ℕ)
  | shelfImage (b : Brand) (w h : ℕ)
  | crtShelfImage (b : Brand) (w h : ℕ)
  | vhsShelfImage (b : Brand) (w h : ℕ)
  | accentColorset (accent : Option (ℚ × ℚ × ℚ))
  | launchBGColorset (rgb : ℚ × ℚ × ℚ)
deriving DecidableEq

/-- Whether an asset description is one of the VHS-theme composers. -/
def isVhsSpec : AssetSpec → Bool
  | AssetSpec.vhsIcon _ _ => true
  | AssetSpec.vhsLaunchLogo _ _ => true
  | AssetSpec.vhsTvosFront _ _ _ => true
  | AssetSpec.vhsShelfImage _ _ _ => true
  | _ => false

/-- Path of the VHS source image (source lines 204-205). -/
def vhsSourcePath : String := "scripts/vhs_source.png"

/-- Files opened for reading while composing an asset: only the VHS
composers open the VHS source image (source lines 208-210). -/
def assetReads : AssetSpec → List String
  | AssetSpec.vhsIcon _ _ => [vhsSourcePath]
  | AssetSpec.vhsLaunchLogo _ _ => [vhsSourcePath]
  | AssetSpec.vhsTvosFront _ _ _ => [vhsSourcePath]
  | AssetSpec.vhsShelfImage _ _ _ => [vhsSourcePath]
  | _ => []

/-- App icon manifest of generate (source lines 525-537). -/
def iconSizes : List (String × ℕ) :=
  [("AppIcon-1024.png", 1024), ("AppIcon-512@2x.png", 1024), ("AppIcon-512.png", 512),
   ("AppIcon-256@2x.png", 512), ("AppIcon-256.png", 256), ("AppIcon-128@2x.png", 256),
   ("AppIcon-128.png", 128), ("AppIcon-32@2x.png", 64), ("AppIcon-32.png", 32),
   ("AppIcon-16@2x.png", 32), ("AppIcon-16.png", 16)]

/-- The per-size icon cache loop of generate (source lines 538-542): walk
the manifest with a cache from pixel size to rendered image; render on a
cache miss, then save the cached image for the entry. Returns the saved
(filename, image) pairs and the final cache. -/
def cachedRunFull {α : Type} (f : ℕ → α) :
    List (String × ℕ) → List (ℕ × α) → List (String × α) × List (ℕ × α)
  | [], cache => ([], cache)
  | entry :: rest, cache =>
    match List.lookup entry.2 cache with
    | some img =>
      ((entry.1, img) :: (cachedRunFull f rest cache).1, (cachedRunFull f rest cache).2)
    | none =>
      ((entry.1, f entry.2) :: (cachedRunFull f rest ((entry.2, f entry.2) :: cache)).1,
       (cachedRunFull f rest ((entry.2, f entry.2) :: cache)).2)

/-- Themed icon composer dispatch of generate (source line 541). -/
def iconRenderCfg (b : Brand) (crt : Bool) (sz : ℕ) : AssetSpec :=
  if crt then AssetSpec.crtIcon b sz else AssetSpec.appIcon b sz

/-- Themed icon composer dispatch for a brand key. -/
def iconRender (k : BrandKey) (sz : ℕ) : AssetSpec := iconRenderCfg (BRANDS k) (isCrt k) sz

/-- The three layer files of one tvOS image stack size (source lines 561-576):
back (themed), middle (always empty), front (themed). -/
def tvStackWrites (dir : String) (b : Brand) (crt : Bool) (w h : ℕ) (tag : String) :
    List (String × AssetSpec) :=
  [(dir ++ "Back.imagestacklayer/Content.imageset/" ++ tag,
     if crt then AssetSpec.crtTvosBack b w h else AssetSpec.tvosBack b w h),
   (dir ++ "Middle.imagestacklayer/Content.imageset/" ++ tag, AssetSpec.tvosMiddle w h),
   (dir ++ "Front.imagestacklayer/Content.imageset/" ++ tag,
     if crt then AssetSpec.crtTvosFront b w h else AssetSpec.tvosFront b w h)]

/-- All files written by generate (source lines 512-595), as paths relative
to the brand's asset directory paired with the asset composed for them,
parameterised by the brand record and the CRT flag. -/
def generateWritesCfg (b : Brand) (crt : Bool) : List (String × AssetSpec) :=
  (cachedRunFull (iconRenderCfg b crt) iconSizes []).1.map
    (fun p => ("AppIcon.appiconset/" ++ p.1, p.2)) ++
  [("LaunchLogo.imageset/LaunchLogo.png",
     if crt then AssetSpec.crtLaunchLogo b 120 else AssetSpec.launchLogo b 120),
   ("LaunchLogo.imageset/LaunchLogo@2x.png",
     if crt then AssetSpec.crtLaunchLogo b 240 else AssetSpec.launchLogo b 240),
   ("LaunchLogo.imageset/LaunchLogo@3x.png",
     if crt then AssetSpec.crtLaunchLogo b 360 else AssetSpec.launchLogo b 360)] ++
  [("LaunchBG.imageset/LaunchBG.png", AssetSpec.launchBG (launchBGFillCfg b crt) 120),
   ("LaunchBG.imageset/LaunchBG@2x.png", AssetSpec.launchBG (launchBGFillCfg b crt) 240),
   ("LaunchBG.imageset/LaunchBG@3x.png", AssetSpec.launchBG (launchBGFillCfg b crt) 360)] ++
  tvStackWrites "tv.brandassets/App Icon.imagestack/" b crt 400 240 "icon_400x240.png" ++
  tvStackWrites "tv.brandassets/App Icon.imagestack/" b crt 800 480 "icon_800x480.png" ++
  tvStackWrites "tv.brandassets/App Icon - App Store.imagestack/" b crt 1280 768 "icon_1280x768.png" ++
  [("tv.brandassets/Top Shelf Image.imageset/shelf_1920x720.png",
     if crt then AssetSpec.crtShelfImage b 1920 720 else AssetSpec.shelfImage b 1920 720),
   ("tv.brandassets/Top Shelf Image.imageset/shelf_3840x1440.png",
     if crt then AssetSpec.crtShelfImage b 3840 1440 else AssetSpec.shelfImage b 3840 1440),
   ("tv.brandassets/Top Shelf Image Wide.imageset/shelf_wide_2320x720.png",
     if crt then AssetSpec.crtShelfImage b 2320 720 else AssetSpec.shelfImage b 2320 720),
   ("tv.brandassets/Top Shelf Image Wide.imageset/shelf_wide_4640x1440.png",
     if crt then AssetSpec.crtShelfImage b 4640 1440 else AssetSpec.shelfImage b 4640 1440)] ++
  [("AccentColor.colorset/Contents.json", AssetSpec.accentColorset b.accentRgb),
   ("LaunchBackground.colorset/Contents.json", AssetSpec.launchBGColorset b.launchBgRgb)]

/-- All files written by generate for a brand key (source lines 512-516:
brand = BRANDS[brand_key], is_crt = brand_key == "dispatcherpvr"). -/
def generateWrites (k : BrandKey) : List (String × AssetSpec) :=
  generateWritesCfg (BRANDS k) (isCrt k)

/-- A filesystem state: file contents by path. -/
abbrev FS := String → Option String

/-- One run of generate over a filesystem state. The source reads no file
content on the executed code paths (the VHS loader is never invoked), so
the produced writes do not depend on the state. -/
def runGenerate (fs : FS) (k : BrandKey) : List (String × AssetSpec) := generateWrites k

/-- Outcome of main (source lines 598-613): either an argparse usage error
with the process exit code, or the performed writes. -/
inductive MainResult where
  | usageError (exitCode : ℕ)
  | done (writes : List (String × AssetSpec))

/-- The accepted values of the positional brand argument (source line 602). -/
def brandChoices : List String := ["nexuspvr", "dispatcherpvr", "all"]

/-- Model of main (source lines 598-613): argparse rejects any positional
argument outside choices with a usage error and exit code 2 before any
generation; "all" generates both brands in table order. -/
def mainRun (arg : String) : MainResult :=
  if arg ∈ brandChoices then
    if arg = "all" then
      MainResult.done (generateWrites BrandKey.nexuspvr ++ generateWrites BrandKey.dispatcherpvr)
    else if arg = "nexuspvr" then MainResult.done (generateWrites BrandKey.nexuspvr)
    else MainResult.done (generateWrites BrandKey.dispatcherpvr)
  else MainResult.usageError 2

/-- Writes performed by a main outcome (none on a usage error). -/
def writesOf : MainResult → List (String × AssetSpec)
  | MainResult.usageError _ => []
  | MainResult.done w => w

/-- JSON values of the colorset documents. -/
inductive Json where
  | str (s : String)
  | num (n : ℤ)
  | obj (fields : List (String × Json))
  | arr (elems : List Json)

/-- A double quote. -/
def dquote : String := "\""

/-- A JSON string literal (none of the program's strings needs escaping). -/
def quoteStr (s : String) : String := dquote ++ s ++ dquote

mutual

/-- JSON serialiser used for the written documents (json.dump modulo the
indent-2 whitespace, which does not affect the modelled properties). -/
def dumpJson : Json → String
  | Json.str s => quoteStr s
  | Json.num n => toString n
  | Json.obj fs => "\x7b" ++ dumpFields fs ++ "\x7d"
  | Json.arr es => "[" ++ dumpElems es ++ "]"

/-- Serialise the fields of a JSON object. -/
def dumpFields : List (String × Json) → String
  | [] => ""
  | [kv] => quoteStr kv.1 ++ ": " ++ dumpJson kv.2
  | kv :: rest => quoteStr kv.1 ++ ": " ++ dumpJson kv.2 ++ ", " ++ dumpFields rest

/-- Serialise the elements of a JSON array. -/
def dumpElems : List Json → String
  | [] => ""
  | [e] => dumpJson e
  | e :: rest => dumpJson e ++ ", " ++ dumpElems rest

end

/-- Zero-padding of a fractional part to three digits. -/
def pad3 (n : ℕ) : String :=
  if n < 10 then "00" ++ toString n else if n < 100 then "0" ++ toString n else toString n

/-- Python format f-string with .3f on a 0-1 colour component: the value
rounded to three decimal places, printed as integer part, dot, three
fraction digits. -/
def format3 (q : ℚ) : String :=
  toString (round (q * 1000) / 1000) ++ "." ++ pad3 (round (q * 1000) % 1000).toNat

/-- Numeric value of a decimal digit character. -/
def digitVal (c : Char) : Option ℕ := if c.isDigit then some (c.toNat - 48) else none

/-- Parse a nonempty string of decimal digits. -/
def parseDigits (cs : List Char) : Option ℕ :=
  if cs = [] then none
  else cs.foldl (fun acc c =>
    match acc, digitVal c with
    | some a, some d => some (a * 10 + d)
    | _, _ => none) (some 0)

/-- Parse a decimal string of the shape intpart.fracpart back to a rational
(the reader's round trip of a formatted component). -/
def parse3 (str : String) : Option ℚ :=
  match str.data.splitOn '.' with
  | [ip, fp] =>
    match parseDigits ip, parseDigits fp with
    | some i, some f => some ((i : ℚ) + (f : ℚ) / (10 : ℚ) ^ fp.length)
    | _, _ => none
  | _ => none

/-- The JSON document built by write_accent_colorset (source lines 443-466):
with no accent colour the single colors entry carries only the idiom; with
an accent colour it carries the srgb colour object with .3f-formatted
component strings (in source key order: alpha, blue, green, red). -/
def accentColorsetData (accent : Option (ℚ × ℚ × ℚ)) : Json :=
  match accent with
  | none =>
    Json.obj [("colors", Json.arr [Json.obj [("idiom", Json.str "universal")]]),
              ("info", Json.obj [("author", Json.str "xcode"), ("version", Json.num 1)])]
  | some a =>
    Json.obj [("colors", Json.arr [Json.obj
        [("color", Json.obj [("color-space", Json.str "srgb"),
            ("components", Json.obj [("alpha", Json.str "1.000"),
                ("blue", Json.str (format3 a.2.2)), ("green", Json.str (format3 a.2.1)),
                ("red", Json.str (format3 a.1))])]),
         ("idiom", Json.str "universal")]]),
      ("info", Json.obj [("author", Json.str "xcode"), ("version", Json.num 1)])]

/-- Lookup of a key in the fields of a JSON object. -/
def jsonLookup (fields : List (String × Json)) (key : String) : Option Json :=
  match fields with
  | [] => none
  | (k, v) :: rest => if k = key then some v else jsonLookup rest key

/-- First entry of the top-level colors array of a document. -/
def colorsHead (j : Json) : Option Json :=
  match j with
  | Json.obj fields =>
    match jsonLookup fields "colors" with
    | some (Json.arr (e :: _)) => some e
    | _ => none
  | _ => none

/-- Lookup of a key in an optional JSON object. -/
def jsonObjLookup (j : Option Json) (key : String) : Option Json :=
  match j with
  | some (Json.obj fields) => jsonLookup fields key
  | _ => none

/-- The components object of the first colour entry of a document. -/
def componentsOf (j : Json) : Option Json :=
  jsonObjLookup (jsonObjLookup (colorsHead j) "color") "components"

/-- A file write performed by the script: target path, whether parent
directories are created first (os.makedirs exist_ok=True), content. -/
structure FileWrite where
  path : String
  makesParentDirs : Bool
  content : String

/-- Effect of write_accent_colorset (source lines 443-471): create the
parent directories, then write the serialised document followed by a
trailing newline. -/
def writeAccentColorset (assetsDir : String) (accentRgb : Option (ℚ × ℚ × ℚ)) : FileWrite :=
  { path := assetsDir ++ "/AccentColor.colorset/Contents.json"
    makesParentDirs := true
    content := dumpJson (accentColorsetData accentRgb) ++ "\n" }

/-- Python int() of a nonnegative-valued natural cast is the natural itself. -/
lemma pyIntR_natCast (n : ℕ) : pyIntR (n : ℝ) = (n : ℤ) := by
  unfold pyIntR
  rw [if_pos (by positivity), Int.floor_natCast]

/-- Python int() truncation agrees with the floor on nonnegative reals. -/
lemma pyIntR_of_nonneg {x : ℝ} (h : 0 ≤ x) : pyIntR x = ⌊x⌋ := if_pos h

/-- A gradient channel at a pixel sitting exactly at the canvas centre is the
centre channel: the distance is zero, the eased ratio is zero, and the
interpolation collapses to the centre value. -/
lemma gradChannel_center (w h x y c e : ℕ) (hx : (x : ℝ) = (w : ℝ) / 2)
    (hy : (y : ℝ) = (h : ℝ) / 2) : gradChannel w h c e x y = (c : ℤ) := by
  unfold gradChannel
  rw [hx, hy]
  have h1 : ((w : ℝ) / 2 - (w : ℝ) / 2) ^ 2 + ((h : ℝ) / 2 - (h : ℝ) / 2) ^ 2 = 0 := by ring
  rw [h1, Real.sqrt_zero, zero_div, min_eq_left zero_le_one,
    Real.zero_rpow (by norm_num : (0.8 : ℝ) ≠ 0), mul_zero, add_zero, pyIntR_natCast]

/-- A gradient channel at corner (0,0) is exactly the edge channel: the
distance there equals the corner distance, so the eased ratio is one. -/
lemma gradChannel_corner (w h c e : ℕ) (hw : 0 < w) :
    gradChannel w h c e 0 0 = (e : ℤ) := by
  unfold gradChannel
  have harg : (((0 : ℕ) : ℝ) - (w : ℝ) / 2) ^ 2 + (((0 : ℕ) : ℝ) - (h : ℝ) / 2) ^ 2
      = ((w : ℝ) / 2) ^ 2 + ((h : ℝ) / 2) ^ 2 := by push_cast; ring
  rw [harg]
  have hw2 : (0 : ℝ) < (w : ℝ) / 2 := by
    have hww : (0 : ℝ) < (w : ℝ) := by exact_mod_cast hw
    linarith
  have hpos : (0 : ℝ) < ((w : ℝ) / 2) ^ 2 + ((h : ℝ) / 2) ^ 2 :=
    add_pos_of_pos_of_nonneg (pow_pos hw2 2) (sq_nonneg _)
  rw [div_self (ne_of_gt (Real.sqrt_pos.mpr hpos)), min_self, Real.one_rpow]
  have hval : (c : ℝ) + ((e : ℝ) - (c : ℝ)) * 1 = ((e : ℕ) : ℝ) := by ring
  rw [hval, pyIntR_natCast]

/-- Truncated linear interpolation between two natural channel values with a
coefficient in the unit interval stays between the two values. -/
lemma interp_floor_mem (c e : ℕ) (t : ℝ) (h0 : 0 ≤ t) (h1 : t ≤ 1) :
    ((min c e : ℕ) : ℤ) ≤ pyIntR ((c : ℝ) + ((e : ℝ) - (c : ℝ)) * t) ∧
    pyIntR ((c : ℝ) + ((e : ℝ) - (c : ℝ)) * t) ≤ ((max c e : ℕ) : ℤ) := by
  have hlo : ((min c e : ℕ) : ℝ) ≤ (c : ℝ) + ((e : ℝ) - (c : ℝ)) * t := by
    rcases le_total c e with hce | hce
    · have hm : ((min c e : ℕ) : ℝ) = (c : ℝ) := by rw [min_eq_left hce]
      have hce2 : (c : ℝ) ≤ (e : ℝ) := by exact_mod_cast hce
      nlinarith [mul_nonneg (sub_nonneg.mpr hce2) h0]
    · have hm : ((min c e : ℕ) : ℝ) = (e : ℝ) := by rw [min_eq_right hce]
      have hce2 : (e : ℝ) ≤ (c : ℝ) := by exact_mod_cast hce
      nlinarith [mul_le_of_le_one_right (sub_nonneg.mpr hce2) h1]
  have hhi : (c : ℝ) + ((e : ℝ) - (c : ℝ)) * t ≤ ((max c e : ℕ) : ℝ) := by
    rcases le_total c e with hce | hce
    · have hm : ((max c e : ℕ) : ℝ) = (e : ℝ) := by rw [max_eq_right hce]
      have hce2 : (c : ℝ) ≤ (e : ℝ) := by exact_mod_cast hce
      nlinarith [mul_le_of_le_one_right (sub_nonneg.mpr hce2) h1]
    · have hm : ((max c e : ℕ) : ℝ) = (c : ℝ) := by rw [max_eq_left hce]
      have hce2 : (e : ℝ) ≤ (c : ℝ) := by exact_mod_cast hce
      nlinarith [mul_nonneg (sub_nonneg.mpr hce2) h0]
  have hnn : (0 : ℝ) ≤ (c : ℝ) + ((e : ℝ) - (c : ℝ)) * t :=
    le_trans (Nat.cast_nonneg _) hlo
  rw [pyIntR_of_nonneg hnn]
  constructor
  · exact Int.le_floor.mpr (by exact_mod_cast hlo)
  · have hfl : ((⌊(c : ℝ) + ((e : ℝ) - (c : ℝ)) * t⌋ : ℤ) : ℝ) ≤ ((max c e : ℕ) : ℝ) :=
      le_trans (Int.floor_le _) hhi
    exact_mod_cast hfl

/-- Every gradient channel value lies between the centre and edge channel
values: the eased ratio lies in the unit interval. -/
lemma gradChannel_mem (w h c e x y : ℕ) :
    ((min c e : ℕ) : ℤ) ≤ gradChannel w h c e x y ∧
    gradChannel w h c e x y ≤ ((max c e : ℕ) : ℤ) := by
  unfold gradChannel
  have hb0 : (0 : ℝ) ≤ min (Real.sqrt (((x : ℝ) - (w : ℝ) / 2) ^ 2 + ((y : ℝ) - (h : ℝ) / 2) ^ 2) /
      Real.sqrt (((w : ℝ) / 2) ^ 2 + ((h : ℝ) / 2) ^ 2)) 1 :=
    le_min (div_nonneg (Real.sqrt_nonneg _) (Real.sqrt_nonneg _)) zero_le_one
  exact interp_floor_mem c e _ (Real.rpow_nonneg hb0 _)
    (Real.rpow_le_one hb0 (min_le_right _ _) (by norm_num))

/-- The composed nexuspvr 1024-pixel app icon is white at pixel (512, 512):
that pixel is outside the recording dot but inside the play triangle, whose
opaque white fill is composited on top of the gradient. -/
lemma appIconPixel_nexus_center :
    appIconPixel 1024 (BRANDS BrandKey.nexuspvr) 512 512 = (255, 255, 255) := by
  have h1 : inRecordingDot (((1024 : ℕ) : ℚ) / 2) (((1024 : ℕ) : ℚ) / 2)
      (((1024 : ℕ) : ℚ) / 1024 * 2.5) ((512 : ℕ) : ℚ) ((512 : ℕ) : ℚ) = false := by
    simp only [inRecordingDot, decide_eq_false_iff_not]
    norm_num
  have h2 : inPlayButton (((1024 : ℕ) : ℚ) / 2) (((1024 : ℕ) : ℚ) / 2)
      (((1024 : ℕ) : ℚ) / 1024 * 2.5) ((512 : ℕ) : ℚ) ((512 : ℕ) : ℚ) = true := by
    simp only [inPlayButton, inTriangleQ, crossQ, Bool.or_eq_true, Bool.and_eq_true,
      decide_eq_true_eq]
    norm_num
  simp only [appIconPixel, h1, h2]
  simp

/-- Evaluation of int(c * 255) on the configured 0-1 colour triples. -/
lemma scale255_nexus : scale255 (BRANDS BrandKey.nexuspvr).launchBgRgb = (15, 15, 15) := by
  show scale255 (0.059, 0.059, 0.059) = (15, 15, 15)
  rw [scale255, Prod.mk.injEq, Prod.mk.injEq]
  refine ⟨?_, ?_, ?_⟩ <;> rw [pyIntQ, if_pos (by norm_num)] <;> norm_num [Int.floor_eq_iff]

/-- Evaluation of int(c * 255) on the dispatcherpvr launch-background triple. -/
lemma scale255_dispatcher : scale255 (BRANDS BrandKey.dispatcherpvr).launchBgRgb = (18, 18, 19) := by
  show scale255 (0.071, 0.071, 0.078) = (18, 18, 19)
  rw [scale255, Prod.mk.injEq, Prod.mk.injEq]
  refine ⟨?_, ?_, ?_⟩ <;> rw [pyIntQ, if_pos (by norm_num)] <;> norm_num [Int.floor_eq_iff]

/-- The accent component 0.263 formats to the string 0.263 and parses back
to the configured rational. -/
lemma parse3_format3_263 : parse3 (format3 (0.263 : ℚ)) = some (0.263 : ℚ) := by
  have hr : round ((0.263 : ℚ) * 1000) = 263 := by rw [round_eq]; norm_num [Int.floor_eq_iff]
  have hf : format3 (0.263 : ℚ) = "0.263" := by simp only [format3, hr]; decide
  have hp : parse3 "0.263" = some (((0 : ℕ) : ℚ) + ((263 : ℕ) : ℚ) / (10 : ℚ) ^ 3) := rfl
  rw [hf, hp]
  norm_num

/-- The accent component 0.561 formats to the string 0.561 and parses back
to the configured rational. -/
lemma parse3_format3_561 : parse3 (format3 (0.561 : ℚ)) = some (0.561 : ℚ) := by
  have hr : round ((0.561 : ℚ) * 1000) = 561 := by rw [round_eq]; norm_num [Int.floor_eq_iff]
  have hf : format3 (0.561 : ℚ) = "0.561" := by simp only [format3, hr]; decide
  have hp : parse3 "0.561" = some (((0 : ℕ) : ℚ) + ((561 : ℕ) : ℚ) / (10 : ℚ) ^ 3) := rfl
  rw [hf, hp]
  norm_num

/-- The accent component 0.498 formats to the string 0.498 and parses back
to the configured rational. -/
lemma parse3_format3_498 : parse3 (format3 (0.498 : ℚ)) = some (0.498 : ℚ) := by
  have hr : round ((0.498 : ℚ) * 1000) = 498 := by rw [round_eq]; norm_num [Int.floor_eq_iff]
  have hf : format3 (0.498 : ℚ) = "0.498" := by simp only [format3, hr]; decide
  have hp : parse3 "0.498" = some (((0 : ℕ) : ℚ) + ((498 : ℕ) : ℚ) / (10 : ℚ) ^ 3) := rfl
  rw [hf, hp]
  norm_num

/-- Claim C3: for every positive width and height and every pair of RGB
colours, create_radial_gradient yields the centre colour at any pixel lying
exactly at the canvas centre, yields a pixel within one unit per channel of
the edge colour at corner (0,0), and every pixel is the per-channel linear
interpolation of centre toward edge by min(distance/corner-distance, 1)^0.8
truncated to integer. -/
theorem radial_gradient_center_corner (w h : ℕ) (c e : ℕ × ℕ × ℕ) (hw : 0 < w) (hh : 0 < h) :
    (∀ x y : ℕ, (x : ℝ) = (w : ℝ) / 2 → (y : ℝ) = (h : ℝ) / 2 →
      createRadialGradient w h c e x y = ((c.1 : ℤ), (c.2.1 : ℤ), (c.2.2 : ℤ))) ∧
    withinOne (createRadialGradient w h c e 0 0) e ∧
    (∀ x y : ℕ, createRadialGradient w h c e x y =
      (pyIntR ((c.1 : ℝ) + ((e.1 : ℝ) - (c.1 : ℝ)) *
        (min (Real.sqrt (((x : ℝ) - (w : ℝ) / 2) ^ 2 + ((y : ℝ) - (h : ℝ) / 2) ^ 2) /
          Real.sqrt (((w : ℝ) / 2) ^ 2 + ((h : ℝ) / 2) ^ 2)) 1) ^ (0.8 : ℝ)),
       pyIntR ((c.2.1 : ℝ) + ((e.2.1 : ℝ) - (c.2.1 : ℝ)) *
        (min (Real.sqrt (((x : ℝ) - (w : ℝ) / 2) ^ 2 + ((y : ℝ) - (h : ℝ) / 2) ^ 2) /
          Real.sqrt (((w : ℝ) / 2) ^ 2 + ((h : ℝ) / 2) ^ 2)) 1) ^ (0.8 : ℝ)),
       pyIntR ((c.2.2 : ℝ) + ((e.2.2 : ℝ) - (c.2.2 : ℝ)) *
        (min (Real.sqrt (((x : ℝ) - (w : ℝ) / 2) ^ 2 + ((y : ℝ) - (h : ℝ) / 2) ^ 2) /
          Real.sqrt (((w : ℝ) / 2) ^ 2 + ((h : ℝ) / 2) ^ 2)) 1) ^ (0.8 : ℝ)))) := by
  refine ⟨?_, ?_, fun x y => rfl⟩
  · intro x y hx hy
    unfold createRadialGradient
    rw [gradChannel_center w h x y c.1 e.1 hx hy, gradChannel_center w h x y c.2.1 e.2.1 hx hy,
      gradChannel_center w h x y c.2.2 e.2.2 hx hy]
  · have h1 := gradChannel_corner w h c.1 e.1 hw
    have h2 := gradChannel_corner w h c.2.1 e.2.1 hw
    have h3 := gradChannel_corner w h c.2.2 e.2.2 hw
    simp only [withinOne, createRadialGradient, h1, h2, h3]
    norm_num

/-- Witness for C3 at a concrete even canvas and the nexuspvr colours. -/
theorem radial_gradient_center_corner_witness :
    createRadialGradient 2 2 (42, 107, 153) (15, 35, 60) 1 1 = (42, 107, 153) ∧
    withinOne (createRadialGradient 2 2 (42, 107, 153) (15, 35, 60) 0 0) (15, 35, 60) := by
  obtain ⟨hc, hcor, -⟩ :=
    radial_gradient_center_corner 2 2 (42, 107, 153) (15, 35, 60) (by norm_num) (by norm_num)
  refine ⟨?_, hcor⟩
  exact_mod_cast hc 1 1 (by norm_num) (by norm_num)

/-- Claim C9: for every pixel of the image returned by
create_radial_gradient, each channel value lies inclusively between the
corresponding channels of the centre and edge colours. -/
theorem gradient_channel_bounds (w h : ℕ) (c e : ℕ × ℕ × ℕ) (x y : ℕ)
    (hx : x < w) (hy : y < h) :
    channelsBetween (createRadialGradient w h c e x y) c e := by
  unfold channelsBetween createRadialGradient
  exact ⟨gradChannel_mem w h c.1 e.1 x y, gradChannel_mem w h c.2.1 e.2.1 x y,
    gradChannel_mem w h c.2.2 e.2.2 x y⟩

/-- Witness for C9 at a concrete pixel of a concrete gradient. -/
theorem gradient_channel_bounds_witness :
    (0 : ℕ) < 2 ∧
    channelsBetween (createRadialGradient 2 2 (42, 107, 153) (15, 35, 60) 0 0)
      (42, 107, 153) (15, 35, 60) :=
  ⟨by norm_num, gradient_channel_bounds 2 2 (42, 107, 153) (15, 35, 60) 0 0
    (by norm_num) (by norm_num)⟩

/-- Claim C1 counterexample: the centre pixel of the composed 1024-pixel
nexuspvr app icon is the white of the play-button overlay, not within
rounding error of the configured gradient centre (42, 107, 153). -/
theorem appIcon_center_counterexample :
    appIconPixel 1024 (BRANDS BrandKey.nexuspvr) 512 512 = (255, 255, 255) ∧
    ¬ withinOne (appIconPixel 1024 (BRANDS BrandKey.nexuspvr) 512 512) (42, 107, 153) := by
  refine ⟨appIconPixel_nexus_center, ?_⟩
  rw [appIconPixel_nexus_center]
  decide

/-- Claim C1 as amended: generating for nexuspvr writes the 1024-pixel icon
first in the manifest; the composed icon's centre pixel is the opaque white
of the play-button overlay; and the radial-gradient background itself has
centre pixel exactly equal to the configured gradient centre (42, 107, 153). -/
theorem appIcon_center_amended :
    (generateWrites BrandKey.nexuspvr).head? =
      some ("AppIcon.appiconset/AppIcon-1024.png", AssetSpec.appIcon (BRANDS BrandKey.nexuspvr) 1024) ∧
    appIconPixel 1024 (BRANDS BrandKey.nexuspvr) 512 512 = (255, 255, 255) ∧
    createRadialGradient 1024 1024 (42, 107, 153) (15, 35, 60) 512 512 = (42, 107, 153) := by
  refine ⟨rfl, appIconPixel_nexus_center, ?_⟩
  show (gradChannel 1024 1024 42 15 512 512, gradChannel 1024 1024 107 35 512 512,
    gradChannel 1024 1024 153 60 512 512) = (42, 107, 153)
  rw [gradChannel_center 1024 1024 512 512 42 15 (by norm_num) (by norm_num),
    gradChannel_center 1024 1024 512 512 107 35 (by norm_num) (by norm_num),
    gradChannel_center 1024 1024 512 512 153 60 (by norm_num) (by norm_num)]
  norm_num

/-- Claim C2 counterexample: for brand dispatcherpvr the launch-background
images are filled with CRT_BG = (14, 31, 21), which differs from the brand's
configured launch-background colour scaled to 0-255, namely (18, 18, 19). -/
theorem launchBG_crt_counterexample :
    launchBGImagePixel BrandKey.dispatcherpvr 120 0 0 = (14, 31, 21) ∧
    scale255 (BRANDS BrandKey.dispatcherpvr).launchBgRgb = (18, 18, 19) ∧
    launchBGImagePixel BrandKey.dispatcherpvr 120 0 0 ≠
      scale255 (BRANDS BrandKey.dispatcherpvr).launchBgRgb := by
  have h1 : launchBGImagePixel BrandKey.dispatcherpvr 120 0 0 = (14, 31, 21) := rfl
  refine ⟨h1, scale255_dispatcher, ?_⟩
  rw [h1, scale255_dispatcher]
  decide

/-- Claim C2 as amended: every pixel of every launch-background image of
nexuspvr is the brand's launch-background colour scaled to 0-255, namely
(15, 15, 15); for dispatcherpvr (the CRT theme) every pixel is instead
CRT_BG = (14, 31, 21); both brands emit exactly the 120, 240 and 360 pixel
variants. -/
theorem launchBG_fill_amended :
    (∀ sz x y : ℕ, launchBGImagePixel BrandKey.nexuspvr sz x y =
      scale255 (BRANDS BrandKey.nexuspvr).launchBgRgb) ∧
    scale255 (BRANDS BrandKey.nexuspvr).launchBgRgb = (15, 15, 15) ∧
    (∀ sz x y : ℕ, launchBGImagePixel BrandKey.dispatcherpvr sz x y = CRT_BG) ∧
    ((generateWrites BrandKey.nexuspvr).filterMap (fun p =>
      match p.2 with
      | AssetSpec.launchBG _ sz => some sz
      | _ => none) = [120, 240, 360]) ∧
    ((generateWrites BrandKey.dispatcherpvr).filterMap (fun p =>
      match p.2 with
      | AssetSpec.launchBG _ sz => some sz
      | _ => none) = [120, 240, 360]) :=
  ⟨fun _ _ _ => rfl, scale255_nexus, fun _ _ _ => rfl, rfl, rfl⟩

/-- Claim C4: for every brand, walking the icon manifest with the per-size
cache saves, for every manifest filename, exactly the image rendered for
that filename's pixel size (equivalence of the memoised and unmemoised
generations), and the final cache holds one rendered image per distinct
pixel size of the manifest. -/
theorem icon_cache_refines_plain_render :
    ∀ k : BrandKey,
      (cachedRunFull (iconRender k) iconSizes []).1 =
        iconSizes.map (fun p => (p.1, iconRender k p.2)) ∧
      (cachedRunFull (iconRender k) iconSizes []).2 =
        [(16, iconRender k 16), (32, iconRender k 32), (64, iconRender k 64),
         (128, iconRender k 128), (256, iconRender k 256), (512, iconRender k 512),
         (1024, iconRender k 1024)] := by
  intro k
  cases k <;> exact ⟨rfl, rfl⟩

/-- Claim C5: write_accent_colorset with an undefined accent writes a
document whose single colors entry is exactly the idiom-universal object
with no color key; with a defined accent it writes the srgb component
strings produced by .3f formatting, which for every configured brand accent
parse back to the configured fractional values; in both cases parent
directories are created and the content ends with a trailing newline. -/
theorem write_accent_colorset_behaviour :
    colorsHead (accentColorsetData none) = some (Json.obj [("idiom", Json.str "universal")]) ∧
    jsonObjLookup (colorsHead (accentColorsetData none)) "color" = none ∧
    (∀ r g b : ℚ, componentsOf (accentColorsetData (some (r, g, b))) =
      some (Json.obj [("alpha", Json.str "1.000"), ("blue", Json.str (format3 b)),
        ("green", Json.str (format3 g)), ("red", Json.str (format3 r))])) ∧
    (∀ k : BrandKey, ∀ a : ℚ × ℚ × ℚ, (BRANDS k).accentRgb = some a →
      parse3 (format3 a.1) = some a.1 ∧ parse3 (format3 a.2.1) = some a.2.1 ∧
      parse3 (format3 a.2.2) = some a.2.2) ∧
    (∀ (dir : String) (acc : Option (ℚ × ℚ × ℚ)),
      (writeAccentColorset dir acc).makesParentDirs = true ∧
      ∃ p, (writeAccentColorset dir acc).content = p ++ "\n") := by
  refine ⟨rfl, rfl, fun r g b => rfl, ?_, fun dir acc => ⟨rfl, dumpJson (accentColorsetData acc), rfl⟩⟩
  intro k a h
  cases k
  · exact Option.noConfusion h
  · have ha : (0.263, 0.561, 0.498) = a := by injection h
    rw [← ha]
    exact ⟨parse3_format3_263, parse3_format3_561, parse3_format3_498⟩

/-- Witness for C5 at the configured dispatcherpvr accent. -/
theorem write_accent_colorset_behaviour_witness :
    parse3 (format3 (0.263 : ℚ)) = some (0.263 : ℚ) ∧
    (writeAccentColorset "Assets" (some (0.263, 0.561, 0.498))).makesParentDirs = true := by
  obtain ⟨-, -, -, hrt, hw⟩ := write_accent_colorset_behaviour
  exact ⟨(hrt BrandKey.dispatcherpvr (0.263, 0.561, 0.498) rfl).1,
    (hw "Assets" (some (0.263, 0.561, 0.498))).1⟩

/-- Claim C6: whenever the CRT reference extent int(200*s) is at most 32,
the recording-dot radius and the (shared) knob radius computed by
_draw_crt_on are at least one pixel. -/
theorem crt_small_radius_floor (s : ℚ) (h : pyIntQ (200 * s) ≤ 32) :
    1 ≤ crtRecRadius s ∧ 1 ≤ crtKnobRadius s := by
  unfold crtRecRadius crtKnobRadius
  rw [if_pos h, if_pos h]
  exact ⟨le_max_right _ _, le_max_right _ _⟩

/-- Witness for C6 at the scale of a 16-pixel CRT icon (s = 16/200). -/
theorem crt_small_radius_floor_witness :
    pyIntQ (200 * (2 / 25 : ℚ)) ≤ 32 ∧
    (1 ≤ crtRecRadius (2 / 25 : ℚ) ∧ 1 ≤ crtKnobRadius (2 / 25 : ℚ)) := by
  have h : pyIntQ (200 * (2 / 25 : ℚ)) ≤ 32 := by
    rw [pyIntQ, if_pos (by norm_num)]
    norm_num
  exact ⟨h, crt_small_radius_floor (2 / 25 : ℚ) h⟩

/-- Claim C7: the writes of a generation run are independent of the
filesystem state and are a function of the brand configuration and the CRT
theme flag alone, so two runs (also over different states, in particular
over the state left by a first run) produce identical output content. -/
theorem generate_deterministic (fs1 fs2 : FS) (k1 k2 : BrandKey)
    (hb : BRANDS k1 = BRANDS k2) (hc : isCrt k1 = isCrt k2) :
    runGenerate fs1 k1 = runGenerate fs2 k2 := by
  unfold runGenerate generateWrites
  rw [hb, hc]

/-- Witness for C7: the same brand over two different filesystem states. -/
theorem generate_deterministic_witness :
    runGenerate (fun _ => none) BrandKey.nexuspvr =
      runGenerate (fun _ => some "occupied") BrandKey.nexuspvr :=
  generate_deterministic (fun _ => none) (fun _ => some "occupied")
    BrandKey.nexuspvr BrandKey.nexuspvr rfl rfl

/-- Claim C8: the argument parser accepts exactly nexuspvr, dispatcherpvr
and all; any other positional brand argument yields a usage error with the
non-zero exit code 2 and no asset is generated. -/
theorem main_brand_choices (s : String) :
    (s ∉ brandChoices →
      mainRun s = MainResult.usageError 2 ∧ writesOf (mainRun s) = [] ∧ (2 : ℕ) ≠ 0) ∧
    (s ∈ brandChoices → ∃ w, mainRun s = MainResult.done w) := by
  constructor
  · intro h
    have e : mainRun s = MainResult.usageError 2 := by
      unfold mainRun
      rw [if_neg h]
    refine ⟨e, ?_, by norm_num⟩
    rw [e]
    exact rfl
  · intro h
    unfold mainRun
    rw [if_pos h]
    by_cases h1 : s = "all"
    · rw [if_pos h1]
      exact ⟨_, rfl⟩
    · rw [if_neg h1]
      by_cases h2 : s = "nexuspvr"
      · rw [if_pos h2]
        exact ⟨_, rfl⟩
      · rw [if_neg h2]
        exact ⟨_, rfl⟩

/-- Witness for C8: the invalid brand vcr is rejected with exit code 2 and
no writes, while the valid choice all is accepted. -/
theorem main_brand_choices_witness :
    "vcr" ∉ brandChoices ∧ mainRun "vcr" = MainResult.usageError 2 ∧
    writesOf (mainRun "vcr") = [] ∧
    "all" ∈ brandChoices ∧ (∃ w, mainRun "all" = MainResult.done w) := by
  have h1 : "vcr" ∉ brandChoices := by decide
  have h2 : "all" ∈ brandChoices := by decide
  obtain ⟨ha, hb, -⟩ := (main_brand_choices "vcr").1 h1
  exact ⟨h1, ha, hb, h2, (main_brand_choices "all").2 h2⟩

/-- Claim C10: for every brand key the orchestrator composes no VHS-theme
asset and no composed asset opens the VHS source image, so a missing or
unreadable VHS source file cannot affect any run. -/
theorem generate_never_vhs :
    ∀ k : BrandKey,
      ((generateWrites k).all (fun p => !isVhsSpec p.2)) = true ∧
      ((generateWrites k).all (fun p => (assetReads p.2).isEmpty)) = true := by
  intro k
  cases k <;> exact ⟨rfl, rfl⟩
